import Mathlib

/-!
Verification of the ReportScheduler backend against its design specification.

Shallow embedding of the Python source under `src/backend/src`:
* `utils/cron.py` — cron validation and next-run calculation (the croniter
  and pytz dependencies are modelled: a five-field cron parser over a
  minute-resolution Gregorian calendar, and a finite table of zone offsets).
* `domain/services/schedule_service.py` — quota enforcement and creation.
* `infrastructure/database/repositories/postgres_schedule_repository.py` —
  cursor pagination and the `update` timestamp refresh.
* `infrastructure/cache/report_cache.py` — the Redis-backed result cache.
* `workers/tasks.py` — the report-generation pipeline and email delivery.
* `scheduler/scheduler_loop.py` — the per-schedule trigger step.

Machine times are minutes since 2000-01-01 00:00 UTC (a `Nat`).
-/

namespace ReportScheduler

/-- Model of a Python `datetime`: an instant (minutes since the 2000-01-01
UTC epoch) together with its `tzinfo` as a UTC offset in minutes;
`utcOffsetMinutes = none` models a naive datetime (`tzinfo is None`). -/
structure PyDatetime where
  minutes : Nat
  utcOffsetMinutes : Option Int
deriving DecidableEq, Repr

/-- Model of `datetime.utcnow()`: the current instant as a NAIVE datetime. -/
def datetime_utcnow (clock : Nat) : PyDatetime := ⟨clock, none⟩

/-- Model of `datetime.now(timezone.utc)`: the current instant as an
aware UTC datetime. -/
def datetime_now_utc (clock : Nat) : PyDatetime := ⟨clock, some 0⟩

/-! ## Cron evaluator (src/backend/src/utils/cron.py, croniter modelled) -/

/-- A parsed five-field cron expression: the allowed values of each field,
plus whether the day-of-month / day-of-week fields were written `*`
(standard cron matches the day by OR when both are restricted). -/
structure CronExpr where
  minutes : List Nat
  hours : List Nat
  dom : List Nat
  months : List Nat
  dow : List Nat
  domStar : Bool
  dowStar : Bool
deriving DecidableEq, Repr

/-- The values `lo, lo+k, lo+2k, ...` up to `hi`. -/
def rangeStep (lo hi k : Nat) : List Nat :=
  (List.range' lo (hi + 1 - lo)).filter (fun n => (n - lo) % k = 0)

/-- Split a character list on a separator character (keeps empty groups,
like Python's `str.split(sep)`). -/
def charsSplit (sep : Char) (cs : List Char) : List (List Char) :=
  cs.foldr
    (fun ch acc =>
      if ch = sep then [] :: acc
      else
        match acc with
        | [] => [[ch]]
        | g :: gs => (ch :: g) :: gs)
    [[]]

/-- Parse a decimal numeral from characters (`none` if empty or not all
digits). -/
def digitsToNat (cs : List Char) : Option Nat :=
  if cs = [] then none
  else
    cs.foldl
      (fun acc c =>
        match acc with
        | none => none
        | some n => if c.isDigit then some (n * 10 + (c.toNat - 48)) else none)
      (some 0)

/-- Parse one item of a cron field (`*`, `a`, `a-b`, optionally `/step`),
given the field's value range. Models croniter's numeric field syntax. -/
def parseCronItem (cs : List Char) (lo hi : Nat) : Option (List Nat) :=
  let core (base : List Char) (step : Option Nat) : Option (List Nat) :=
    match step with
    | some 0 => none
    | _ =>
      let k := step.getD 1
      if base = ['*'] then some (rangeStep lo hi k)
      else
        match charsSplit '-' base with
        | [a] =>
          match digitsToNat a with
          | some av =>
            if lo ≤ av ∧ av ≤ hi then
              match step with
              | none => some [av]
              | some _ => some (rangeStep av hi k)
            else none
          | none => none
        | [a, b] =>
          match digitsToNat a, digitsToNat b with
          | some av, some bv =>
            if lo ≤ av ∧ av ≤ bv ∧ bv ≤ hi then some (rangeStep av bv k) else none
          | _, _ => none
        | _ => none
  match charsSplit '/' cs with
  | [base] => core base none
  | [base, st] =>
    match digitsToNat st with
    | some k => core base (some k)
    | none => none
  | _ => none

/-- Parse a whole cron field: a comma-separated list of items. -/
def parseCronField (cs : List Char) (lo hi : Nat) : Option (List Nat) :=
  let items := charsSplit ',' cs
  let parsed := items.map (fun it => parseCronItem it lo hi)
  if parsed.all Option.isSome then
    some ((parsed.map (fun o => o.getD [])).flatten)
  else none

/-- Parse a five-field cron expression (minute hour day-of-month month
day-of-week); day-of-week 7 is normalised to 0 (Sunday). Models the
validation performed by `croniter(cron_expr)`. -/
def parseCron (expr : String) : Option CronExpr :=
  match (charsSplit ' ' expr.toList).filter (fun f => f ≠ []) with
  | [mi, h, d, mo, w] =>
    match parseCronField mi 0 59, parseCronField h 0 23, parseCronField d 1 31,
          parseCronField mo 1 12, parseCronField w 0 7 with
    | some miL, some hL, some dL, some moL, some wL =>
      if miL ≠ [] ∧ hL ≠ [] ∧ dL ≠ [] ∧ moL ≠ [] ∧ wL ≠ [] then
        some { minutes := miL, hours := hL, dom := dL, months := moL,
               dow := wL.map (fun n => n % 7),
               domStar := d = ['*'], dowStar := w = ['*'] }
      else none
    | _, _, _, _, _ => none
  | _ => none

/-- Gregorian leap-year rule. -/
def isLeap (y : Nat) : Bool := y % 4 = 0 && (y % 100 ≠ 0 || y % 400 = 0)

/-- Days in a month of a given year. -/
def daysInMonth (y m : Nat) : Nat :=
  match m with
  | 1 => 31 | 2 => if isLeap y then 29 else 28 | 3 => 31 | 4 => 30
  | 5 => 31 | 6 => 30 | 7 => 31 | 8 => 31
  | 9 => 30 | 10 => 31 | 11 => 30 | _ => 31

/-- Resolve a day count (days since 2000-01-01) to a year and the
remaining day offset within that year; fuelled recursion. -/
def yearOfDays : Nat → Nat → Nat → Nat × Nat
  | 0, y, d => (y, d)
  | fuel + 1, y, d =>
    let len := if isLeap y then 366 else 365
    if d < len then (y, d) else yearOfDays fuel (y + 1) (d - len)

/-- Resolve a day offset within a year to a month and the remaining
day offset within that month. -/
def monthOfDays : Nat → Nat → Nat → Nat → Nat × Nat
  | 0, _, m, d => (m, d)
  | fuel + 1, y, m, d =>
    let len := daysInMonth y m
    if d < len then (m, d) else monthOfDays fuel y (m + 1) (d - len)

/-- A calendar decomposition of an instant: wall-clock fields used for
cron matching. `dow` uses cron convention 0 = Sunday. -/
structure CalDT where
  minute : Nat
  hour : Nat
  day : Nat
  month : Nat
  year : Nat
  dow : Nat
deriving DecidableEq, Repr

/-- Decompose minutes-since-epoch into calendar fields
(2000-01-01 was a Saturday, cron day-of-week 6). -/
def calOfMinutes (t : Nat) : CalDT :=
  let days := t / 1440
  let yd := yearOfDays 5000 2000 days
  let md := monthOfDays 12 yd.1 1 yd.2
  { minute := t % 60, hour := t / 60 % 24,
    day := md.2 + 1, month := md.1, year := yd.1, dow := (6 + days) % 7 }

/-- Does the cron expression fire at this instant? Standard cron day rule:
when both day fields are restricted the day matches if either does. -/
def cronMatches (c : CronExpr) (t : Nat) : Bool :=
  let dt := calOfMinutes t
  let dayOk :=
    if c.domStar || c.dowStar then
      (dt.day ∈ c.dom) && (dt.dow ∈ c.dow)
    else
      (dt.day ∈ c.dom) || (dt.dow ∈ c.dow)
  (dt.minute ∈ c.minutes) && (dt.hour ∈ c.hours) && (dt.month ∈ c.months) && dayOk

/-- Linear search for the first matching instant at or after `t`,
bounded by `fuel`; models croniter's forward scan in `get_next`. -/
def findNextFrom (c : CronExpr) : Nat → Nat → Option Nat
  | 0, _ => none
  | fuel + 1, t => if cronMatches c t then some t else findNextFrom c fuel (t + 1)

/-- Search horizon (about four years of minutes); croniter raises a
bad-date error when no fire exists within its own horizon. -/
def cronSearchHorizon : Nat := 4 * 366 * 1440

/-- Model of the pytz zone table as fixed UTC offsets, stored shifted by
+720 minutes so that all arithmetic stays in `Nat`
(`shift = offset_minutes + 720`). `none` models `UnknownTimeZoneError`. -/
def pytzShift (tz : String) : Option Nat :=
  if tz = "UTC" then some 720
  else if tz = "America/New_York" then some (720 - 300)
  else if tz = "US/Pacific" then some (720 - 480)
  else if tz = "Europe/Berlin" then some (720 + 60)
  else if tz = "Asia/Kolkata" then some (720 + 330)
  else if tz = "Australia/Sydney" then some (720 + 600)
  else none

/-- `validate_cron_expression` from utils/cron.py: true iff the croniter
constructor accepts the expression. -/
def validate_cron_expression (cron_expr : String) : Bool × Option String :=
  match parseCron cron_expr with
  | some _ => (true, none)
  | none => (false, some ("Invalid cron expression: " ++ cron_expr))

/-- `calculate_next_run` from utils/cron.py: resolve the timezone
(raising `ValueError` on an unknown zone), localise the base time,
ask croniter for the next fire strictly after it, and convert the
result back to UTC. -/
def calculate_next_run (cron_expr tz : String) (base_time : Nat) : Except String Nat :=
  match pytzShift tz with
  | none => .error ("Invalid timezone: " ++ tz)
  | some shift =>
    match parseCron cron_expr with
    | none => .error ("Invalid cron expression: " ++ cron_expr)
    | some c =>
      let localBase := base_time + shift - 720
      match findNextFrom c cronSearchHorizon (localBase + 1) with
      | none => .error "no fire time found within the search horizon"
      | some r => .ok (r + 720 - shift)

theorem findNextFrom_ge {c : CronExpr} :
    ∀ {fuel t r : Nat}, findNextFrom c fuel t = some r → t ≤ r := by
  intro fuel
  induction fuel with
  | zero => intro t r h; simp [findNextFrom] at h
  | succ n ih =>
    intro t r h
    by_cases hm : cronMatches c t
    · simp [findNextFrom, hm] at h; omega
    · simp [findNextFrom, hm] at h
      have := ih h
      omega

theorem pytzShift_le {tz : String} {s : Nat} (h : pytzShift tz = some s) :
    s ≤ 1440 := by
  unfold pytzShift at h
  repeat' split at h
  all_goals (simp_all; try omega)

theorem calculate_next_run_gt {cron tzName : String} {base r : Nat}
    (hb : 1440 ≤ base) (h : calculate_next_run cron tzName base = .ok r) :
    base < r := by
  unfold calculate_next_run at h
  cases hz : pytzShift tzName with
  | none => rw [hz] at h; exact absurd h (by simp)
  | some shift =>
    rw [hz] at h
    cases hp : parseCron cron with
    | none => rw [hp] at h; exact absurd h (by simp)
    | some c =>
      rw [hp] at h
      simp only at h
      cases hf : findNextFrom c cronSearchHorizon (base + shift - 720 + 1) with
      | none => rw [hf] at h; exact absurd h (by simp)
      | some rl =>
        rw [hf] at h
        simp only [Except.ok.injEq] at h
        have h1 := findNextFrom_ge hf
        have h2 := pytzShift_le hz
        omega

/-- C7: for every cron expression and timezone the evaluator accepts,
`calculate_next_run` returns an instant strictly after the base time,
and therefore iterating it is strictly monotone: the fire computed from
a returned fire is strictly later again. -/
theorem calculate_next_run_strictly_monotone (cron tzName : String) (base r : Nat)
    (hb : 1440 ≤ base) (h : calculate_next_run cron tzName base = .ok r) :
    base < r ∧ ∀ r', calculate_next_run cron tzName r = .ok r' → r < r' := by
  refine ⟨calculate_next_run_gt hb h, fun r' h' => ?_⟩
  have hbr : base < r := calculate_next_run_gt hb h
  exact calculate_next_run_gt (by omega) h'

set_option maxRecDepth 100000 in
/-- Witness: the daily-at-09:00 schedule in UTC fires at 09:00 on
2000-01-02 when asked from 2000-01-02 00:00, and the fire after that is
strictly later again. -/
theorem calculate_next_run_strictly_monotone_witness :
    1440 < 1980 ∧ 1980 < 3420 := by
  have h := calculate_next_run_strictly_monotone "0 9 * * *" "UTC" 1440 1980
    (by decide) (by rfl)
  exact ⟨h.1, h.2 3420 (by rfl)⟩

/-! ## Schedule rows and the schedule service
(src/backend/src/infrastructure/database/models.py,
src/backend/src/domain/services/schedule_service.py) -/

/-- Email delivery configuration attached to a schedule
(`email_delivery_config` JSON: recipients, optional subject/cc/bcc). -/
structure EmailCfg where
  recipients : List String
  subject : Option String
  cc : Option (List String)
  bcc : Option (List String)
deriving DecidableEq, Repr

/-- The `schedule` table row (models.py `Schedule`); `created_at` is a
plain UTC instant (always written timezone-aware in the source),
`updated_at` keeps its full `PyDatetime` so tz-awareness is observable. -/
structure ScheduleRow where
  id : String
  tenant_id : String
  report_definition_id : String
  name : String
  cron_expression : String
  timezone : String
  is_active : Bool
  next_run_at : Option Nat
  last_run_at : Option Nat
  email_delivery_config : Option EmailCfg
  created_by : String
  created_at : Nat
  updated_at : PyDatetime
deriving DecidableEq, Repr

/-- `ScheduleService.SCHEDULE_LIMITS`: tier-based quota limits. -/
def SCHEDULE_LIMITS : List (String × Nat) :=
  [("standard", 10), ("premium", 50), ("enterprise", 200)]

/-- `SCHEDULE_LIMITS.get(tenant_tier, 10)`: quota for a tier, defaulting
to 10 for unknown tiers. -/
def scheduleLimit (tenant_tier : String) : Nat :=
  (SCHEDULE_LIMITS.lookup tenant_tier).getD 10

/-- `count_by_tenant_id` from postgres_schedule_repository.py: count the
tenant's schedules, optionally filtered by `is_active`. -/
def count_by_tenant_id (db : List ScheduleRow) (tenant_id : String)
    (is_active : Option Bool) : Nat :=
  (db.filter (fun s =>
    s.tenant_id == tenant_id &&
      match is_active with
      | some b => s.is_active == b
      | none => true)).length

/-- The quota error message produced by `create_schedule`
(`Schedule limit reached (LIMIT for TIER tier)`). -/
def quotaErrorMsg (limit : Nat) (tenant_tier : String) : String :=
  "Schedule limit reached (" ++ toString limit ++ " for " ++ tenant_tier ++ " tier)"

/-- The uncaught exception raised by `create_schedule`'s entity
construction: the `timezone : str` parameter shadows the
`datetime.timezone` import, so `datetime.now(timezone.utc)` evaluates
`.utc` on a string. -/
def attributeErrorUtc : String := "AttributeError: str object has no attribute utc"

/-- `ScheduleService.create_schedule`: check the tier quota against the
active-schedule count, validate the cron expression, compute
`next_run_at` (failing on an invalid timezone), then build and persist
the schedule entity. The entity construction evaluates
`created_at=datetime.now(timezone.utc)` where `timezone` is the STRING
parameter shadowing the `datetime.timezone` import
(schedule_service.py:37 and :92), so this step raises `AttributeError`
before `repository.create` runs and nothing is ever persisted. Returns
(`(schedule, error)` or the uncaught exception, resulting table). -/
def create_schedule (db : List ScheduleRow)
    (tenant_id tenant_tier report_definition_id name cron_expression tzName : String)
    (email_delivery_config : Option EmailCfg) (created_by : String)
    (newId : String) (now : Nat) :
    Except String (Option ScheduleRow × Option String) × List ScheduleRow :=
  let schedule_limit := scheduleLimit tenant_tier
  let current_count := count_by_tenant_id db tenant_id (some true)
  if schedule_limit ≤ current_count then
    (.ok (none, some (quotaErrorMsg schedule_limit tenant_tier)), db)
  else
    match validate_cron_expression cron_expression with
    | (false, err) => (.ok (none, err), db)
    | (true, _) =>
      match calculate_next_run cron_expression tzName now with
      | .error e => (.ok (none, some e), db)
      | .ok _ => (.error attributeErrorUtc, db)

/-- `PostgresScheduleRepository.update`: refreshes `updated_at` with
`datetime.utcnow()` (a naive datetime) before flushing. -/
def repository_update (schedule : ScheduleRow) (clock : Nat) : ScheduleRow :=
  { schedule with updated_at := datetime_utcnow clock }

/-! ## Scheduler loop trigger step
(src/backend/src/scheduler/scheduler_loop.py `_trigger_schedule`) -/

/-- Environment of one `_trigger_schedule` call: the burst-protection
verdict (and whether the check itself raised, which the code swallows
and treats as admission), and whether the queue publish succeeded
(a publish failure is logged and processing continues). -/
structure TriggerEnv where
  burstOk : Bool
  burstCheckRaises : Bool
  enqueueOk : Bool
deriving DecidableEq, Repr

/-- `_trigger_schedule`: if burst protection refuses, return the schedule
untouched and do not enqueue; otherwise enqueue, set `last_run_at := now`
and recompute `next_run_at`; if the recomputation raises, set
`is_active := false` (the failure is only logged). Returns the updated
row and whether a task was enqueued. -/
def trigger_schedule (env : TriggerEnv) (schedule : ScheduleRow) (now : Nat) :
    ScheduleRow × Bool :=
  if !env.burstCheckRaises && !env.burstOk then
    (schedule, false)
  else
    let s1 := { schedule with last_run_at := some now }
    match calculate_next_run schedule.cron_expression schedule.timezone now with
    | .ok nxt => ({ s1 with next_run_at := some nxt }, env.enqueueOk)
    | .error _ => ({ s1 with is_active := false }, env.enqueueOk)

/-! ## Theorems about the schedule service and repository -/

theorem validate_cron_eq_true {cron : String} {c : CronExpr}
    (h : parseCron cron = some c) :
    validate_cron_expression cron = (true, none) := by
  unfold validate_cron_expression
  rw [h]

theorem create_schedule_quota_reject
    {db : List ScheduleRow} {tenant_id tenant_tier : String}
    (report_definition_id name cron_expression tzName : String)
    (cfg : Option EmailCfg) (created_by newId : String) (now : Nat)
    (h : scheduleLimit tenant_tier ≤ count_by_tenant_id db tenant_id (some true)) :
    create_schedule db tenant_id tenant_tier report_definition_id name
        cron_expression tzName cfg created_by newId now =
      (.ok (none, some (quotaErrorMsg (scheduleLimit tenant_tier) tenant_tier)),
        db) := by
  simp only [create_schedule]
  rw [if_pos h]

theorem create_schedule_crash
    {db : List ScheduleRow} {tenant_id tenant_tier cron_expression tzName : String}
    {c : CronExpr} {nxt : Nat}
    (report_definition_id name : String) (cfg : Option EmailCfg)
    (created_by newId : String) (now : Nat)
    (hlt : count_by_tenant_id db tenant_id (some true) < scheduleLimit tenant_tier)
    (hpc : parseCron cron_expression = some c)
    (hnr : calculate_next_run cron_expression tzName now = .ok nxt) :
    create_schedule db tenant_id tenant_tier report_definition_id name
        cron_expression tzName cfg created_by newId now =
      (.error attributeErrorUtc, db) := by
  simp only [create_schedule]
  rw [if_neg (by omega), validate_cron_eq_true hpc, hnr]

/-- C2 (refuting the persistence half of the claim on the code): the
quota gate behaves as claimed — at or above the tier quota (10 / 50 /
200 for standard / premium / enterprise) `create_schedule` returns the
quota error and inserts nothing — but below quota with valid cron and
timezone, creation NEVER persists a schedule: entity construction
raises `AttributeError` (the `timezone` parameter shadows
`datetime.timezone`) before `repository.create`, leaving the table
unchanged. -/
theorem create_schedule_quota_and_crash
    (db : List ScheduleRow)
    (tenant_id tenant_tier report_definition_id name cron_expression tzName : String)
    (cfg : Option EmailCfg) (created_by newId : String) (now : Nat)
    (htier : tenant_tier = "standard" ∨ tenant_tier = "premium" ∨
      tenant_tier = "enterprise") :
    ((tenant_tier = "standard" → scheduleLimit tenant_tier = 10) ∧
     (tenant_tier = "premium" → scheduleLimit tenant_tier = 50) ∧
     (tenant_tier = "enterprise" → scheduleLimit tenant_tier = 200)) ∧
    (scheduleLimit tenant_tier ≤ count_by_tenant_id db tenant_id (some true) →
      create_schedule db tenant_id tenant_tier report_definition_id name
          cron_expression tzName cfg created_by newId now =
        (.ok (none, some (quotaErrorMsg (scheduleLimit tenant_tier) tenant_tier)),
          db)) ∧
    (∀ c nxt,
      count_by_tenant_id db tenant_id (some true) < scheduleLimit tenant_tier →
      parseCron cron_expression = some c →
      calculate_next_run cron_expression tzName now = .ok nxt →
      create_schedule db tenant_id tenant_tier report_definition_id name
          cron_expression tzName cfg created_by newId now =
        (.error attributeErrorUtc, db)) := by
  refine ⟨?_, ?_, ?_⟩
  · rcases htier with h | h | h <;> subst h <;> refine ⟨?_, ?_, ?_⟩ <;>
      intro h <;> first | rfl | (exact absurd h (by decide))
  · intro h
    exact create_schedule_quota_reject _ _ _ _ _ _ _ _ h
  · intro c nxt hlt hpc hnr
    exact create_schedule_crash _ _ _ _ _ _ hlt hpc hnr

/-- A concrete active schedule row used to instantiate theorems. -/
def sampleRow : ScheduleRow :=
  { id := "s1", tenant_id := "t1", report_definition_id := "rd1",
    name := "daily sales", cron_expression := "0 9 * * *",
    timezone := "UTC", is_active := true, next_run_at := some 1980,
    last_run_at := none, email_delivery_config := none,
    created_by := "u1", created_at := 1440, updated_at := ⟨1440, some 0⟩ }

set_option maxRecDepth 100000 in
/-- Witness: a standard-tier tenant with 10 active schedules gets the
quota error with the table unchanged, and the same tenant with an empty
table hits the `AttributeError` instead of persisting. -/
theorem create_schedule_quota_and_crash_witness :
    create_schedule (List.replicate 10 sampleRow) "t1" "standard" "rd1" "n"
        "0 9 * * *" "UTC" none "u1" "id9" 1440 =
      (.ok (none, some (quotaErrorMsg 10 "standard")), List.replicate 10 sampleRow) ∧
    create_schedule [] "t1" "standard" "rd1" "n"
        "0 9 * * *" "UTC" none "u1" "id9" 1440 =
      (.error attributeErrorUtc, []) := by
  obtain ⟨c, hc⟩ : ∃ c, parseCron "0 9 * * *" = some c := ⟨_, rfl⟩
  refine ⟨(create_schedule_quota_and_crash (List.replicate 10 sampleRow) "t1"
    "standard" "rd1" "n" "0 9 * * *" "UTC" none "u1" "id9" 1440
    (Or.inl rfl)).2.1 (by decide), ?_⟩
  exact (create_schedule_quota_and_crash [] "t1" "standard" "rd1" "n"
    "0 9 * * *" "UTC" none "u1" "id9" 1440 (Or.inl rfl)).2.2 c 1980
    (by decide) hc (by rfl)

/-- C10 (refuting the success half of the claim on the code): a tier
outside standard/premium/enterprise is not rejected and silently gets
the default quota of 10 — at 10 or more active schedules the quota
error is returned — but below 10 creation never succeeds: the same
timezone-shadowing `AttributeError` aborts entity construction before
any row is persisted. -/
theorem create_schedule_unknown_tier_default_and_crash
    (db : List ScheduleRow)
    (tenant_id tenant_tier report_definition_id name cron_expression tzName : String)
    (cfg : Option EmailCfg) (created_by newId : String) (now : Nat)
    (h1 : tenant_tier ≠ "standard") (h2 : tenant_tier ≠ "premium")
    (h3 : tenant_tier ≠ "enterprise") :
    scheduleLimit tenant_tier = 10 ∧
    (10 ≤ count_by_tenant_id db tenant_id (some true) →
      create_schedule db tenant_id tenant_tier report_definition_id name
          cron_expression tzName cfg created_by newId now =
        (.ok (none, some (quotaErrorMsg 10 tenant_tier)), db)) ∧
    (∀ c nxt,
      count_by_tenant_id db tenant_id (some true) < 10 →
      parseCron cron_expression = some c →
      calculate_next_run cron_expression tzName now = .ok nxt →
      create_schedule db tenant_id tenant_tier report_definition_id name
          cron_expression tzName cfg created_by newId now =
        (.error attributeErrorUtc, db)) := by
  have e1 : (tenant_tier == "standard") = false := beq_eq_false_iff_ne.mpr h1
  have e2 : (tenant_tier == "premium") = false := beq_eq_false_iff_ne.mpr h2
  have e3 : (tenant_tier == "enterprise") = false := beq_eq_false_iff_ne.mpr h3
  have hlim : scheduleLimit tenant_tier = 10 := by
    simp [scheduleLimit, SCHEDULE_LIMITS, List.lookup, e1, e2, e3]
  refine ⟨hlim, ?_, ?_⟩
  · intro h
    have := @create_schedule_quota_reject db tenant_id tenant_tier
      report_definition_id name cron_expression tzName cfg created_by newId now
      (by omega)
    rwa [hlim] at this
  · intro c nxt hlt hpc hnr
    exact create_schedule_crash _ _ _ _ _ _ (by omega) hpc hnr

set_option maxRecDepth 100000 in
/-- Witness: tier `"gold"` gets quota 10, and with an empty table the
creation attempt ends in the `AttributeError`, persisting nothing. -/
theorem create_schedule_unknown_tier_default_and_crash_witness :
    scheduleLimit "gold" = 10 ∧
    create_schedule [] "t1" "gold" "rd1" "n" "0 9 * * *" "UTC" none "u1"
        "id1" 1440 = (.error attributeErrorUtc, []) := by
  have h := create_schedule_unknown_tier_default_and_crash [] "t1" "gold" "rd1"
    "n" "0 9 * * *" "UTC" none "u1" "id1" 1440 (by decide) (by decide) (by decide)
  obtain ⟨c, hc⟩ : ∃ c, parseCron "0 9 * * *" = some c := ⟨_, rfl⟩
  exact ⟨h.1, h.2.2 c 1980 (by decide) hc (by rfl)⟩

/-- C9 (refuting the claim): the repository's `update` always stamps
`updated_at` with `datetime.utcnow()`, a NAIVE datetime — never a
timezone-aware UTC instant. -/
theorem repository_update_writes_naive_timestamp
    (schedule : ScheduleRow) (clock : Nat) :
    (repository_update schedule clock).updated_at = ⟨clock, none⟩ ∧
    (repository_update schedule clock).updated_at.utcOffsetMinutes = none := by
  exact ⟨rfl, rfl⟩

/-- A schedule whose timezone has become invalid since creation. -/
def badTzRow : ScheduleRow :=
  { sampleRow with id := "s2", timezone := "Mars/Olympus" }

/-- C8 counterexample: when recomputing the next fire fails during a
trigger, the resulting schedule equals the input with ONLY `last_run_at`
and `is_active` changed — no failure record is written to the schedule
(the `Schedule` model has no metadata column at all). -/
theorem trigger_schedule_counterexample :
    trigger_schedule ⟨true, false, true⟩ badTzRow 2000 =
      ({ badTzRow with last_run_at := some 2000, is_active := false }, true) := by
  rfl

/-- C8 (amended): on a failing next-run recomputation the trigger step
disables the schedule; everything except `last_run_at` and the active
flag is left untouched, so the failure is not recorded on the schedule. -/
theorem trigger_schedule_disables_on_cron_failure
    (env : TriggerEnv) (schedule : ScheduleRow) (now : Nat) (e : String)
    (hok : env.burstOk = true)
    (herr : calculate_next_run schedule.cron_expression schedule.timezone now
      = .error e) :
    trigger_schedule env schedule now =
      ({ schedule with last_run_at := some now, is_active := false },
        env.enqueueOk) := by
  simp only [trigger_schedule, hok, Bool.not_true, Bool.and_false, Bool.false_eq_true,
    if_false]
  rw [herr]

/-- Witness for the amended C8 statement at a concrete schedule. -/
theorem trigger_schedule_disables_on_cron_failure_witness :
    trigger_schedule ⟨true, false, true⟩ badTzRow 2000 =
      ({ badTzRow with last_run_at := some 2000, is_active := false }, true) :=
  trigger_schedule_disables_on_cron_failure ⟨true, false, true⟩ badTzRow 2000
    "Invalid timezone: Mars/Olympus" rfl (by rfl)

/-! ## Result cache (src/backend/src/infrastructure/cache/report_cache.py)

A Redis key-value store modelled as an association list of
`(key, value, expiresAt)`; `setex` replaces any entry for the key and
`get` hides expired entries. Values are report bytes or the
JSON-serialised metadata record (JSON round-trips, so the metadata value
is kept structured). The SHA-256 fingerprint of the canonical JSON of
`(report_definition_id, query_parameters, date_range)` is modelled by
the canonical serialisation itself — only its determinism matters here. -/

/-- Report bytes. -/
abbrev ReportBytes := List Nat

/-- A value stored in Redis: PDF bytes or a JSON-encoded metadata dict. -/
inductive CacheVal where
  | bytes (b : ReportBytes)
  | jsonDict (m : List (String × String))
deriving DecidableEq, Repr

/-- The Redis store: key, value, absolute expiry. -/
abbrev RedisStore := List (String × CacheVal × Nat)

/-- `redis.get`: the live value under a key (`none` if absent or
expired). -/
def redisGet (st : RedisStore) (now : Nat) (k : String) : Option CacheVal :=
  match st.find? (fun e => e.1 == k) with
  | some (_, v, exp) => if now < exp then some v else none
  | none => none

/-- `redis.setex`: write a value with a relative TTL, replacing any
previous entry under the key. -/
def redisSetex (st : RedisStore) (now : Nat) (k : String) (ttl : Nat)
    (v : CacheVal) : RedisStore :=
  (k, v, now + ttl) :: st.filter (fun e => ¬ e.1 = k)

/-- The absolute expiry currently recorded for a key, if any. -/
def entryExpiry (st : RedisStore) (k : String) : Option Nat :=
  (st.find? (fun e => e.1 == k)).map (fun e => e.2.2)

/-- Canonical serialisation of an association list with sorted keys
(models `json.dumps(..., sort_keys=True)` on a string dict). -/
def canonicalPairs (l : List (String × String)) : String :=
  (l.insertionSort (fun a b => ¬ b.1 < a.1)).foldl
    (fun acc kv => acc ++ "<" ++ kv.1 ++ ":" ++ kv.2 ++ ">") ""

/-- `_generate_cache_key`: `report_cache:` followed by the fingerprint of
the canonical JSON of the three cache-identity components. -/
def cache_key (report_definition_id : String)
    (query_parameters date_range : List (String × String)) : String :=
  "report_cache:" ++ "rid=" ++ report_definition_id ++
    "|params=" ++ canonicalPairs query_parameters ++
    "|range=" ++ canonicalPairs date_range

/-- `METADATA_SUFFIX`. -/
def METADATA_SUFFIX : String := ":meta"

/-- `DEFAULT_TTL_SECONDS`. -/
def DEFAULT_TTL_SECONDS : Nat := 3600

/-- The metadata dict decoded from a stored value (`json.loads`); the
source falls back to an empty dict when the metadata value is missing. -/
def metaOf (v : CacheVal) : List (String × String) :=
  match v with
  | .jsonDict m => m
  | .bytes _ => []

/-- The byte payload of a stored value. -/
def bytesOf (v : CacheVal) : ReportBytes :=
  match v with
  | .bytes b => b
  | .jsonDict _ => []

/-- `get_cached_report`: a miss (`None`) when the bytes entry is absent;
otherwise a hit whose metadata is the decoded metadata entry, or the
empty dict if the metadata entry is absent. -/
def get_cached_report (st : RedisStore) (now : Nat)
    (report_definition_id : String)
    (query_parameters date_range : List (String × String)) :
    Option (ReportBytes × List (String × String)) :=
  let ck := cache_key report_definition_id query_parameters date_range
  match redisGet st now ck with
  | none => none
  | some v =>
    let meta :=
      match redisGet st now (ck ++ METADATA_SUFFIX) with
      | some mv => metaOf mv
      | none => []
    some (bytesOf v, meta)

/-- Python dict merge `\x7b**base, **extra\x7d`: keys of `extra` override. -/
def dictMerge (base extra : List (String × String)) : List (String × String) :=
  base.filter (fun kv => (extra.lookup kv.1).isNone) ++ extra

/-- The ttl actually used by `cache_report`: `ttl_seconds or
DEFAULT_TTL_SECONDS` — note Python's `or` also replaces an explicit 0. -/
def effectiveTtl (ttl_seconds : Option Nat) : Nat :=
  match ttl_seconds with
  | some t => if t = 0 then DEFAULT_TTL_SECONDS else t
  | none => DEFAULT_TTL_SECONDS

/-- The metadata record `cache_report` stores alongside the bytes. -/
def cacheMetadataRecord (report_definition_id : String) (now : Nat)
    (pdf_bytes : ReportBytes) (ttl : Nat) (metadata : List (String × String)) :
    List (String × String) :=
  dictMerge
    [("report_definition_id", report_definition_id),
     ("cached_at", toString now),
     ("size_bytes", toString pdf_bytes.length),
     ("ttl_seconds", toString ttl)]
    metadata

/-- `cache_report`: `setex` the bytes under the cache key and the
metadata record under the `:meta` key, both with the same TTL; returns
success and the resulting store. -/
def cache_report (st : RedisStore) (now : Nat)
    (report_definition_id : String) (pdf_bytes : ReportBytes)
    (query_parameters date_range : List (String × String))
    (ttl_seconds : Option Nat) (metadata : List (String × String)) :
    Bool × RedisStore :=
  let ck := cache_key report_definition_id query_parameters date_range
  let ttl := effectiveTtl ttl_seconds
  let st1 := redisSetex st now ck ttl (.bytes pdf_bytes)
  let st2 := redisSetex st1 now (ck ++ METADATA_SUFFIX) ttl
    (.jsonDict (cacheMetadataRecord report_definition_id now pdf_bytes ttl metadata))
  (true, st2)

/-! ## Theorems about the result cache -/

theorem cache_key_ne_meta_key (ck : String) : ck ≠ ck ++ METADATA_SUFFIX := by
  intro h
  have := congrArg String.length h
  rw [String.length_append] at this
  simp only [METADATA_SUFFIX] at this
  have h5 : (":meta" : String).length = 5 := rfl
  omega

/-- C5 counterexample: a store holding the bytes entry but no metadata
entry — `get_cached_report` returns a HIT with empty metadata, not the
miss the claim requires. -/
theorem get_cached_report_counterexample :
    get_cached_report [(cache_key "r1" [] [], .bytes [1, 2, 3], 100)] 0
        "r1" [] [] = some ([1, 2, 3], []) := by
  rfl

/-- C5 (amended): `get_cached_report` misses exactly when the BYTES entry
is absent; when the bytes entry is present it returns a hit even if the
metadata entry is absent, substituting the empty metadata dict. -/
theorem get_cached_report_miss_iff_bytes_absent
    (st : RedisStore) (now : Nat) (report_definition_id : String)
    (query_parameters date_range : List (String × String)) :
    (redisGet st now (cache_key report_definition_id query_parameters date_range)
        = none →
      get_cached_report st now report_definition_id query_parameters date_range
        = none) ∧
    (∀ v, redisGet st now (cache_key report_definition_id query_parameters
        date_range) = some v →
      get_cached_report st now report_definition_id query_parameters date_range
        = some (bytesOf v,
            match redisGet st now (cache_key report_definition_id
                query_parameters date_range ++ METADATA_SUFFIX) with
            | some mv => metaOf mv
            | none => [])) := by
  constructor
  · intro h
    simp only [get_cached_report, h]
  · intro v h
    simp only [get_cached_report, h]

/-- Witness: on the empty store the get is a miss. -/
theorem get_cached_report_miss_iff_bytes_absent_witness :
    get_cached_report [] 0 "r1" [] [] = none :=
  (get_cached_report_miss_iff_bytes_absent [] 0 "r1" [] []).1 rfl

/-- C6: a `cache_report` immediately followed by `get_cached_report`
with the identical `(report, params, range)` triple returns the stored
bytes byte-for-byte at any instant within the TTL, and both entries are
written with the same absolute expiry. -/
theorem cache_report_roundtrip
    (st : RedisStore) (now : Nat) (report_definition_id : String)
    (pdf_bytes : ReportBytes)
    (query_parameters date_range : List (String × String))
    (ttl_seconds : Option Nat) (metadata : List (String × String))
    (now' : Nat) (h : now' < now + effectiveTtl ttl_seconds) :
    (cache_report st now report_definition_id pdf_bytes query_parameters
        date_range ttl_seconds metadata).1 = true ∧
    get_cached_report
        (cache_report st now report_definition_id pdf_bytes query_parameters
          date_range ttl_seconds metadata).2 now'
        report_definition_id query_parameters date_range =
      some (pdf_bytes,
        cacheMetadataRecord report_definition_id now pdf_bytes
          (effectiveTtl ttl_seconds) metadata) ∧
    entryExpiry
        (cache_report st now report_definition_id pdf_bytes query_parameters
          date_range ttl_seconds metadata).2
        (cache_key report_definition_id query_parameters date_range) =
      some (now + effectiveTtl ttl_seconds) ∧
    entryExpiry
        (cache_report st now report_definition_id pdf_bytes query_parameters
          date_range ttl_seconds metadata).2
        (cache_key report_definition_id query_parameters date_range
          ++ METADATA_SUFFIX) =
      some (now + effectiveTtl ttl_seconds) := by
  have hne : cache_key report_definition_id query_parameters date_range ≠
      cache_key report_definition_id query_parameters date_range
        ++ METADATA_SUFFIX :=
    cache_key_ne_meta_key _
  have hb1 : ((cache_key report_definition_id query_parameters date_range
      ++ METADATA_SUFFIX) ==
      cache_key report_definition_id query_parameters date_range) = false :=
    beq_eq_false_iff_ne.mpr (Ne.symm hne)
  have hb2 : ((cache_key report_definition_id query_parameters date_range) ==
      cache_key report_definition_id query_parameters date_range
        ++ METADATA_SUFFIX) = false :=
    beq_eq_false_iff_ne.mpr hne
  refine ⟨rfl, ?_, ?_, ?_⟩ <;>
    simp [cache_report, redisSetex, get_cached_report, redisGet, entryExpiry,
      List.find?, List.filter, hne, Ne.symm hne, hb1, hb2, h, metaOf, bytesOf]

/-- Witness: a put at time 50 with a 60-second TTL is read back
byte-for-byte at time 100. -/
theorem cache_report_roundtrip_witness :
    get_cached_report
        (cache_report [] 50 "r1" [7, 8] [] [] (some 60) [("report_name", "x")]).2
        100 "r1" [] [] =
      some ([7, 8], cacheMetadataRecord "r1" 50 [7, 8] 60 [("report_name", "x")]) :=
  (cache_report_roundtrip [] 50 "r1" [7, 8] [] [] (some 60) [("report_name", "x")]
    100 (by decide)).2.1

/-! ## Execution pipeline (src/backend/src/workers/tasks.py)

`_generate_report_async` runs inside one database session: the run row
is committed as `running` up front; an artifact and delivery receipts
would only be staged with `session.add` and flushed by the next
`commit`. The FAILURE handler reuses the same session — without a
rollback — to mark the run `failed` and commit, which also flushes
anything staged before the exception. In this source, however, the
cache-TTL lookup at tasks.py:180 reads `report_def.execution_metadata`,
and `ReportDefinition` has no `execution_metadata` attribute (it is a
column of `ExecutionRun` only), so EVERY run whose definition is found
raises `AttributeError` there — before the cache lookup, the compute
steps, the upload, the artifact staging and the delivery. The model
tracks, per run, the committed status, the number of committed artifact
rows and the committed receipts. -/

/-- The delivery-receipt row (models.py `DeliveryReceipt`, the fields
written by `_send_report_email`). -/
structure ReceiptRow where
  id : String
  tenant_id : String
  artifact_id : String
  channel : String
  recipient : String
  status : String
  error_message : Option String
deriving DecidableEq, Repr

/-- Outcome of the single `EmailService.send_report_email` call
(the method catches every transport exception and returns
`(success, message_id_or_error)`). -/
structure EmailTransport where
  success : Bool
  messageIdOrError : String
deriving DecidableEq, Repr

/-- `_send_report_email`: ONE transport send covering the whole recipient
list, then one `DeliveryReceipt` per recipient, all sharing that single
call's outcome. Returns (number of transport invocations, receipts). -/
def send_report_email (transport : EmailTransport) (tenant_id artifact_id : String)
    (recipients : List String) : Nat × List ReceiptRow :=
  let success := transport.success
  (1,
    recipients.map (fun r =>
      { id := "receipt_" ++ artifact_id ++ "_" ++ (r.take 20),
        tenant_id, artifact_id, channel := "email", recipient := r,
        status := if success then "sent" else "failed",
        error_message := if success then none else some transport.messageIdOrError }))

/-- The resolution of every effect one `_generate_report_async` call
could consult, in pipeline order: does the report definition exist, its
cache TTL, whether the cache lookup hits, whether each compute step
succeeds, whether blob upload and signed-URL generation succeed, the
email configuration, whether the `EmailService` constructor raises, and
the transport outcome. The unconditional `AttributeError` at
tasks.py:180 fires right after the definition is resolved, so every
field except `reportDefExists` belongs to unreachable code and the
outcome does not depend on it. -/
structure PipelineEnv where
  reportDefExists : Bool
  cacheTtl : Option Nat
  cacheHit : Bool
  fetchOk : Bool
  renderOk : Bool
  pdfOk : Bool
  uploadOk : Bool
  sasOk : Bool
  emailCfg : Option EmailCfg
  emailInitOk : Bool
  emailSend : EmailTransport
deriving DecidableEq, Repr

/-- What one run leaves committed in the database. -/
structure RunOutcome where
  status : String
  artifacts : Nat
  receipts : List ReceiptRow
deriving DecidableEq, Repr

/-- The failure handler of `_generate_report_async`: it sets the run to
`failed` and commits ON THE SAME SESSION, flushing whatever was staged
before the exception (there is no rollback in the handler). -/
def failureCommit (pendingArtifacts : Nat) (pendingReceipts : List ReceiptRow) :
    RunOutcome :=
  { status := "failed", artifacts := pendingArtifacts, receipts := pendingReceipts }

/-- `_generate_report_async` as a function from the effect resolution to
the committed outcome of the run it creates. A missing definition raises
`ValueError`; otherwise the very next statement, the cache-TTL lookup at
tasks.py:180, raises `AttributeError` (`report_def.execution_metadata`
on `ReportDefinition`, which has no such attribute). Either way the
handler commits the run as `failed` with nothing staged: no run reaches
the cache, compute, upload, artifact or delivery steps. -/
def generate_report_outcome (env : PipelineEnv)
    (tenant_id execution_run_id : String) : RunOutcome :=
  if !env.reportDefExists then failureCommit 0 []
  else failureCommit 0 []

/-! ## Theorems about the execution pipeline -/

/-- A fully favourable effect resolution: the definition exists, every
collaborator would succeed, and an email recipient is configured. -/
def favourableEnv : PipelineEnv :=
  { reportDefExists := true, cacheTtl := some 3600, cacheHit := false,
    fetchOk := true, renderOk := true, pdfOk := true,
    uploadOk := true, sasOk := true,
    emailCfg := some ⟨["a@x", "b@y"], none, none, none⟩, emailInitOk := true,
    emailSend := ⟨true, "mid"⟩ }

/-- C1: every execution run that reaches a terminal state satisfies the
artifact invariant — a `completed` run has exactly one artifact and a
`failed` run has zero. In this source the `completed` arm is vacuous:
the unconditional `AttributeError` at tasks.py:180 fails every run
before anything is staged, so the failure path commits with zero
artifacts no matter how every other effect resolves. -/
theorem terminal_run_artifact_invariant
    (env : PipelineEnv) (tenant_id execution_run_id : String) :
    ((generate_report_outcome env tenant_id execution_run_id).status =
        "completed" →
      (generate_report_outcome env tenant_id execution_run_id).artifacts = 1) ∧
    ((generate_report_outcome env tenant_id execution_run_id).status =
        "failed" →
      (generate_report_outcome env tenant_id execution_run_id).artifacts = 0) := by
  cases henv : env.reportDefExists <;>
    simp only [generate_report_outcome, henv] <;> decide

/-- Witness: under the fully favourable resolution the run still ends
`failed` with zero artifacts. -/
theorem terminal_run_artifact_invariant_witness :
    (generate_report_outcome favourableEnv "t1" "exec1").artifacts = 0 :=
  (terminal_run_artifact_invariant favourableEnv "t1" "exec1").2 (by rfl)

/-- C4 (refuting the claim on the code): the delivery step never
executes — whatever the effect resolution, the run ends `failed` before
delivery with no `DeliveryReceipt` inserted, because tasks.py:180
raises on every run. The dead `_send_report_email` helper would,
moreover, invoke the transport exactly ONCE for the whole recipient
list, not once per recipient. -/
theorem delivery_step_never_executes
    (env : PipelineEnv) (tenant_id execution_run_id : String) :
    (generate_report_outcome env tenant_id execution_run_id).status = "failed" ∧
    (generate_report_outcome env tenant_id execution_run_id).receipts = [] ∧
    ∀ (transport : EmailTransport) (artifact_id : String)
      (recipients : List String),
      (send_report_email transport tenant_id artifact_id recipients).1 = 1 := by
  cases henv : env.reportDefExists <;>
    simp only [generate_report_outcome, henv] <;>
    exact ⟨rfl, rfl, fun _ _ _ => rfl⟩

/-! ## Cursor pagination
(src/backend/src/infrastructure/database/repositories/postgres_schedule_repository.py
`find_by_tenant_id`)

The SQL `ORDER BY created_at DESC, id DESC ... LIMIT n+1` over the
filtered rows is modelled as an insertion sort under the corresponding
total preorder followed by `take (n+1)`. The opaque cursor is the
base-64/JSON transport of the `(created_at, id)` pair of the last
returned row; encoding and decoding are mutually inverse on well-formed
cursors, so the cursor is modelled as the pair itself. -/

/-- The pagination sort key of a row: `(created_at, id)`. -/
def scheduleKey (s : ScheduleRow) : Nat × String := (s.created_at, s.id)

/-- The cursor comparison used in the WHERE clause:
`created_at < c.created_at OR (created_at = c.created_at AND id < c.id)`
— strictly less in the ascending lexicographic order, i.e. strictly
after the cursor row in the descending page order. -/
def keyLt (a b : Nat × String) : Prop :=
  a.1 < b.1 ∨ (a.1 = b.1 ∧ a.2 < b.2)

instance : DecidableRel keyLt := fun a b => by
  unfold keyLt; infer_instance

theorem keyLt_irrefl (a : Nat × String) : ¬ keyLt a a := by
  rintro (h | ⟨-, h⟩) <;> exact lt_irrefl _ h

theorem keyLt_trans {a b c : Nat × String} (h1 : keyLt a b) (h2 : keyLt b c) :
    keyLt a c := by
  rcases h1 with h1 | ⟨e1, h1⟩ <;> rcases h2 with h2 | ⟨e2, h2⟩
  · exact Or.inl (lt_trans h1 h2)
  · exact Or.inl (e2 ▸ h1)
  · exact Or.inl (e1 ▸ h2)
  · exact Or.inr ⟨e1.trans e2, lt_trans h1 h2⟩

theorem keyLt_asymm {a b : Nat × String} (h : keyLt a b) : ¬ keyLt b a :=
  fun h' => keyLt_irrefl a (keyLt_trans h h')

theorem keyLt_trichotomy (a b : Nat × String) : keyLt a b ∨ a = b ∨ keyLt b a := by
  rcases lt_trichotomy a.1 b.1 with h | h | h
  · exact Or.inl (Or.inl h)
  · rcases lt_trichotomy a.2 b.2 with h2 | h2 | h2
    · exact Or.inl (Or.inr ⟨h, h2⟩)
    · exact Or.inr (Or.inl (Prod.ext h h2))
    · exact Or.inr (Or.inr (Or.inr ⟨h.symm, h2⟩))
  · exact Or.inr (Or.inr (Or.inl h))

/-- The `ORDER BY created_at DESC, id DESC` page order: `a` is listed no
later than `b`. -/
def pageOrd (a b : ScheduleRow) : Prop := ¬ keyLt (scheduleKey a) (scheduleKey b)

/-- Strict version of the page order: `a` is listed strictly before `b`. -/
def rowGt (a b : ScheduleRow) : Prop := keyLt (scheduleKey b) (scheduleKey a)

instance : DecidableRel pageOrd := fun a b => by
  unfold pageOrd; infer_instance

instance : DecidableRel rowGt := fun a b => by
  unfold rowGt; infer_instance

instance : IsTotal ScheduleRow pageOrd :=
  ⟨fun a b => by
    by_cases h : keyLt (scheduleKey a) (scheduleKey b)
    · exact Or.inr (keyLt_asymm h)
    · exact Or.inl h⟩

instance : IsTrans ScheduleRow pageOrd :=
  ⟨fun a b c hab hbc hac => by
    rcases keyLt_trichotomy (scheduleKey a) (scheduleKey b) with h | h | h
    · exact hab h
    · exact hbc (h ▸ hac)
    · exact hbc (keyLt_trans h hac)⟩

instance : IsAntisymm ScheduleRow rowGt :=
  ⟨fun _ _ h h' => absurd h (keyLt_asymm h')⟩

/-- The base WHERE conditions: tenant scoping plus the optional
`is_active` filter. -/
def basePred (tenant_id : String) (is_active : Option Bool) (s : ScheduleRow) :
    Bool :=
  s.tenant_id == tenant_id &&
    match is_active with
    | some b => s.is_active == b
    | none => true

/-- The decoded cursor condition (absent or malformed cursors add no
condition). -/
def cursorPred (cursor : Option (Nat × String)) (s : ScheduleRow) : Bool :=
  match cursor with
  | some c => decide (keyLt (scheduleKey s) c)
  | none => true

/-- The unpaginated query: all matching rows in
`(created_at DESC, id DESC)` order. -/
def queryAll (db : List ScheduleRow) (tenant_id : String)
    (is_active : Option Bool) : List ScheduleRow :=
  List.insertionSort pageOrd (db.filter (basePred tenant_id is_active))

/-- `find_by_tenant_id`: clamp the limit to 100, apply tenant, activity
and cursor conditions, order by `(created_at DESC, id DESC)`, over-fetch
one row; when more rows exist, drop the extra row and emit the
`(created_at, id)` of the last returned row as the next cursor. -/
def find_by_tenant_id (db : List ScheduleRow) (tenant_id : String)
    (cursor : Option (Nat × String)) (limit : Nat) (is_active : Option Bool) :
    List ScheduleRow × Option (Nat × String) :=
  let lim := min limit 100
  let sorted := List.insertionSort pageOrd
    (db.filter (fun s => basePred tenant_id is_active s && cursorPred cursor s))
  let schedules := sorted.take (lim + 1)
  if lim < schedules.length then
    let kept := schedules.take lim
    match kept.getLast? with
    | some last_schedule => (kept, some (last_schedule.created_at, last_schedule.id))
    | none => (kept, none)
  else (schedules, none)

/-- Repeatedly request pages, feeding each returned cursor into the next
call, and concatenate the pages (fuelled recursion). -/
def listAllPages (db : List ScheduleRow) (tenant_id : String)
    (is_active : Option Bool) (limit : Nat) :
    Nat → Option (Nat × String) → List ScheduleRow
  | 0, _ => []
  | fuel + 1, cursor =>
    let pr := find_by_tenant_id db tenant_id cursor limit is_active
    match pr.2 with
    | none => pr.1
    | some c => pr.1 ++ listAllPages db tenant_id is_active limit fuel (some c)

/-- The rows remaining after a cursor, in page order. -/
def afterCursor (S : List ScheduleRow) (cursor : Option (Nat × String)) :
    List ScheduleRow :=
  S.filter (cursorPred cursor)

/-! ### Pagination lemmas -/

theorem pairwise_rowGt_of_sorted {l : List ScheduleRow}
    (hs : List.Pairwise pageOrd l)
    (hne : List.Pairwise (fun a b : ScheduleRow => a.id ≠ b.id) l) :
    List.Pairwise rowGt l := by
  refine (hs.and hne).imp ?_
  rintro a b ⟨hp, hab⟩
  rcases keyLt_trichotomy (scheduleKey a) (scheduleKey b) with h | h | h
  · exact absurd h hp
  · exact absurd (congrArg Prod.snd h) hab
  · exact h

theorem insertionSort_pairwise_rowGt {l : List ScheduleRow}
    (hne : List.Pairwise (fun a b : ScheduleRow => a.id ≠ b.id) l) :
    List.Pairwise rowGt (List.insertionSort pageOrd l) := by
  have hperm := List.perm_insertionSort pageOrd l
  have hne' : List.Pairwise (fun a b : ScheduleRow => a.id ≠ b.id)
      (List.insertionSort pageOrd l) :=
    (hperm.pairwise_iff (fun h => Ne.symm h)).mpr hne
  exact pairwise_rowGt_of_sorted (List.sorted_insertionSort pageOrd l) hne'

theorem queryAll_pairwise_rowGt (db : List ScheduleRow) (tenant_id : String)
    (is_active : Option Bool)
    (hne : List.Pairwise (fun a b : ScheduleRow => a.id ≠ b.id) db) :
    List.Pairwise rowGt (queryAll db tenant_id is_active) :=
  insertionSort_pairwise_rowGt (hne.filter _)

theorem sort_filter_comm (db : List ScheduleRow) (tenant_id : String)
    (is_active : Option Bool) (cursor : Option (Nat × String))
    (hne : List.Pairwise (fun a b : ScheduleRow => a.id ≠ b.id) db) :
    List.insertionSort pageOrd
      (db.filter (fun s => basePred tenant_id is_active s && cursorPred cursor s))
      = afterCursor (queryAll db tenant_id is_active) cursor := by
  refine @List.eq_of_perm_of_sorted _ rowGt _ _ _ ?_ ?_ ?_
  · refine (List.perm_insertionSort _ _).trans ?_
    have e : db.filter
        (fun s => basePred tenant_id is_active s && cursorPred cursor s) =
        (db.filter (basePred tenant_id is_active)).filter (cursorPred cursor) := by
      rw [List.filter_filter]
      exact List.filter_congr (fun x _ => by rw [Bool.and_comm])
    rw [e]
    exact ((List.perm_insertionSort pageOrd _).filter _).symm
  · exact insertionSort_pairwise_rowGt (hne.filter _)
  · exact (queryAll_pairwise_rowGt db tenant_id is_active hne).filter _

theorem dropWhile_append_all {p : ScheduleRow → Bool} {l₁ l₂ : List ScheduleRow}
    (h₁ : ∀ a ∈ l₁, p a = true)
    (h₂ : ∀ h, l₂.head? = some h → p h = false) :
    (l₁ ++ l₂).dropWhile p = l₂ := by
  induction l₁ with
  | nil =>
    simp only [List.nil_append]
    cases l₂ with
    | nil => rfl
    | cons h t => simp [List.dropWhile_cons, h₂ h rfl]
  | cons a t ih =>
    simp only [List.cons_append, List.dropWhile_cons, h₁ a (by simp)]
    exact ih (fun x hx => h₁ x (by simp [hx]))

theorem filter_keyLt_eq_dropWhile {k : Nat × String} {l : List ScheduleRow}
    (hs : List.Pairwise rowGt l) :
    l.filter (fun s => decide (keyLt (scheduleKey s) k)) =
      l.dropWhile (fun s => ! decide (keyLt (scheduleKey s) k)) := by
  induction l with
  | nil => rfl
  | cons a t ih =>
    rcases List.pairwise_cons.mp hs with ⟨ha, ht⟩
    by_cases hk : keyLt (scheduleKey a) k
    · have htail : List.filter (fun s => decide (keyLt (scheduleKey s) k)) t = t :=
        List.filter_eq_self.mpr
          (fun b hb => decide_eq_true (keyLt_trans (ha b hb) hk))
      simp only [List.filter_cons, List.dropWhile_cons, decide_eq_true hk,
        Bool.not_true, if_true, Bool.false_eq_true, if_false, htail]
    · have hd : decide (keyLt (scheduleKey a) k) = false := decide_eq_false hk
      simp only [List.filter_cons, List.dropWhile_cons, hd, Bool.not_false,
        Bool.false_eq_true, if_false, if_true]
      exact ih ht

theorem all_not_lt_getLast {l : List ScheduleRow} {last : ScheduleRow}
    (hs : List.Pairwise rowGt l) (hl : l.getLast? = some last) :
    ∀ a ∈ l, ¬ keyLt (scheduleKey a) (scheduleKey last) := by
  induction l with
  | nil => simp at hl
  | cons x t ih =>
    intro a ha
    cases t with
    | nil =>
      simp only [List.getLast?_singleton, Option.some.injEq] at hl
      simp only [List.mem_singleton] at ha
      subst hl; subst ha
      exact keyLt_irrefl _
    | cons y t' =>
      rw [List.getLast?_cons_cons] at hl
      rcases List.pairwise_cons.mp hs with ⟨hx, ht⟩
      have hlast_mem : last ∈ y :: t' := by
        obtain ⟨hne', he⟩ := List.mem_getLast?_eq_getLast (Option.mem_def.mpr hl)
        exact he ▸ List.getLast_mem hne'
      rcases List.mem_cons.mp ha with rfl | ha'
      · exact keyLt_asymm (hx _ hlast_mem)
      · exact ih ht hl a ha'

theorem afterCursor_suffix (S : List ScheduleRow)
    (hS : List.Pairwise rowGt S) (cursor : Option (Nat × String)) :
    ∃ pre, S = pre ++ afterCursor S cursor := by
  cases cursor with
  | none =>
    refine ⟨[], ?_⟩
    show S = [] ++ S.filter (fun _ => true)
    rw [List.filter_true, List.nil_append]
  | some c =>
    refine ⟨S.takeWhile (fun s => ! decide (keyLt (scheduleKey s) c)), ?_⟩
    show S = _ ++ S.filter (fun s => decide (keyLt (scheduleKey s) c))
    rw [filter_keyLt_eq_dropWhile hS, List.takeWhile_append_dropWhile]

theorem advance_cursor {S pre rem : List ScheduleRow}
    (hS : List.Pairwise rowGt S) (hsplit : S = pre ++ rem)
    {lim : Nat} {last : ScheduleRow}
    (hlast : (rem.take lim).getLast? = some last) :
    S.filter (fun s => decide (keyLt (scheduleKey s) (scheduleKey last))) =
      rem.drop lim := by
  have hrem : List.Pairwise rowGt rem :=
    hS.sublist (hsplit ▸ List.sublist_append_right pre rem)
  have hlast_take : last ∈ rem.take lim := by
    obtain ⟨hne', he⟩ := List.mem_getLast?_eq_getLast (Option.mem_def.mpr hlast)
    exact he ▸ List.getLast_mem hne'
  have hlast_mem : last ∈ rem := List.take_subset _ _ hlast_take
  have hS2 : S = (pre ++ rem.take lim) ++ rem.drop lim := by
    rw [List.append_assoc, List.take_append_drop]
    exact hsplit
  rw [filter_keyLt_eq_dropWhile hS, hS2]
  apply dropWhile_append_all
  · intro a ha
    have hnot : ¬ keyLt (scheduleKey a) (scheduleKey last) := by
      rcases List.mem_append.mp ha with hpre | hkept
      · have hgt : rowGt a last :=
          (List.pairwise_append.mp (hsplit ▸ hS)).2.2 a hpre last hlast_mem
        exact keyLt_asymm hgt
      · exact all_not_lt_getLast (hrem.sublist (List.take_sublist _ _)) hlast a hkept
    simp [hnot]
  · intro h hh
    have hmem : h ∈ rem.drop lim := by
      cases hdrop : rem.drop lim with
      | nil => rw [hdrop] at hh; simp at hh
      | cons x t =>
        rw [hdrop] at hh
        simp only [List.head?_cons, Option.some.injEq] at hh
        rw [← hh]
        exact List.mem_cons_self x t
    have hgt : keyLt (scheduleKey h) (scheduleKey last) := by
      have hpw : List.Pairwise rowGt (rem.take lim ++ rem.drop lim) := by
        rw [List.take_append_drop]; exact hrem
      exact (List.pairwise_append.mp hpw).2.2 last hlast_take h hmem
    show (! decide (keyLt (scheduleKey h) (scheduleKey last))) = false
    simp [hgt]

theorem find_by_tenant_id_eq (db : List ScheduleRow) (tenant_id : String)
    (is_active : Option Bool) (cursor : Option (Nat × String)) (limit : Nat)
    (hne : List.Pairwise (fun a b : ScheduleRow => a.id ≠ b.id) db) :
    find_by_tenant_id db tenant_id cursor limit is_active =
      (if min limit 100 <
          ((afterCursor (queryAll db tenant_id is_active) cursor).take
            (min limit 100 + 1)).length then
        match (((afterCursor (queryAll db tenant_id is_active) cursor).take
            (min limit 100 + 1)).take (min limit 100)).getLast? with
        | some last_schedule =>
          ((((afterCursor (queryAll db tenant_id is_active) cursor).take
              (min limit 100 + 1)).take (min limit 100)),
            some (last_schedule.created_at, last_schedule.id))
        | none =>
          ((((afterCursor (queryAll db tenant_id is_active) cursor).take
              (min limit 100 + 1)).take (min limit 100)), none)
      else (((afterCursor (queryAll db tenant_id is_active) cursor).take
          (min limit 100 + 1)), none)) := by
  simp only [find_by_tenant_id]
  rw [sort_filter_comm db tenant_id is_active cursor hne]

theorem listAllPages_eq_afterCursor
    (db : List ScheduleRow) (tenant_id : String) (is_active : Option Bool)
    (limit : Nat)
    (hne : List.Pairwise (fun a b : ScheduleRow => a.id ≠ b.id) db)
    (h1 : 1 ≤ limit) (h2 : limit ≤ 100) :
    ∀ (fuel : Nat) (cursor : Option (Nat × String)),
      (afterCursor (queryAll db tenant_id is_active) cursor).length ≤ fuel →
      listAllPages db tenant_id is_active limit fuel cursor =
        afterCursor (queryAll db tenant_id is_active) cursor := by
  have hQ := queryAll_pairwise_rowGt db tenant_id is_active hne
  intro fuel
  induction fuel with
  | zero =>
    intro cursor hlen
    have h0 : afterCursor (queryAll db tenant_id is_active) cursor = [] :=
      List.length_eq_zero.mp (Nat.le_zero.mp hlen)
    rw [h0]; rfl
  | succ n ih =>
    intro cursor hlen
    have hmin : min limit 100 = limit := Nat.min_eq_left h2
    have hfind := find_by_tenant_id_eq db tenant_id is_active cursor limit hne
    rw [hmin] at hfind
    have ht := List.length_take (limit + 1)
      (afterCursor (queryAll db tenant_id is_active) cursor)
    by_cases hbig : limit <
        ((afterCursor (queryAll db tenant_id is_active) cursor).take
          (limit + 1)).length
    · have hrl : limit + 1 ≤
          (afterCursor (queryAll db tenant_id is_active) cursor).length := by
        omega
      have hkept : ((afterCursor (queryAll db tenant_id is_active) cursor).take
          (limit + 1)).take limit =
          (afterCursor (queryAll db tenant_id is_active) cursor).take limit := by
        rw [List.take_take, Nat.min_eq_left (Nat.le_succ limit)]
      have hkeptlen : ((afterCursor (queryAll db tenant_id is_active)
          cursor).take limit).length = limit := by
        rw [List.length_take]; omega
      have hkeptne : (afterCursor (queryAll db tenant_id is_active)
          cursor).take limit ≠ [] := by
        intro h0
        rw [h0] at hkeptlen
        simp at hkeptlen
        omega
      obtain ⟨last, hlast⟩ : ∃ last,
          ((afterCursor (queryAll db tenant_id is_active) cursor).take
            limit).getLast? = some last :=
        ⟨_, List.getLast?_eq_getLast_of_ne_nil hkeptne⟩
      have hfind2 : find_by_tenant_id db tenant_id cursor limit is_active =
          ((afterCursor (queryAll db tenant_id is_active) cursor).take limit,
            some (last.created_at, last.id)) := by
        rw [hfind, if_pos hbig, hkept, hlast]
      obtain ⟨pre, hpre⟩ :=
        afterCursor_suffix (queryAll db tenant_id is_active) hQ cursor
      have hadv : afterCursor (queryAll db tenant_id is_active)
          (some (last.created_at, last.id)) =
          (afterCursor (queryAll db tenant_id is_active) cursor).drop limit := by
        show (queryAll db tenant_id is_active).filter
          (fun s => decide (keyLt (scheduleKey s) (scheduleKey last))) = _
        exact advance_cursor hQ hpre hlast
      have hlen2 : (afterCursor (queryAll db tenant_id is_active)
          (some (last.created_at, last.id))).length ≤ n := by
        rw [hadv, List.length_drop]
        omega
      have hrec := ih (some (last.created_at, last.id)) hlen2
      simp only [listAllPages]
      rw [hfind2]
      show ((afterCursor (queryAll db tenant_id is_active) cursor).take limit) ++
          listAllPages db tenant_id is_active limit n
            (some (last.created_at, last.id)) = _
      rw [hrec, hadv, List.take_append_drop]
    · have hpage : (afterCursor (queryAll db tenant_id is_active) cursor).take
          (limit + 1) = afterCursor (queryAll db tenant_id is_active) cursor :=
        List.take_of_length_le (by omega)
      have hfind2 : find_by_tenant_id db tenant_id cursor limit is_active =
          (afterCursor (queryAll db tenant_id is_active) cursor, none) := by
        rw [hfind, if_neg hbig, hpage]
      simp only [listAllPages]
      rw [hfind2]

/-- C3: with any limit in 1..100, a fixed stored table with
primary-key-distinct ids, and any tenant and activity filter, pages are
given in `(created_at DESC, id DESC)` order and concatenating all pages
starting from no cursor reproduces EXACTLY the unpaginated query — same
rows, same order, no duplicates, no omissions. -/
theorem pagination_totality
    (db : List ScheduleRow) (tenant_id : String) (is_active : Option Bool)
    (limit fuel : Nat)
    (hne : List.Pairwise (fun a b : ScheduleRow => a.id ≠ b.id) db)
    (h1 : 1 ≤ limit) (h2 : limit ≤ 100) (hfuel : db.length ≤ fuel) :
    listAllPages db tenant_id is_active limit fuel none =
      queryAll db tenant_id is_active ∧
    List.Pairwise rowGt (queryAll db tenant_id is_active) := by
  have hQ := queryAll_pairwise_rowGt db tenant_id is_active hne
  have hnone : afterCursor (queryAll db tenant_id is_active) none =
      queryAll db tenant_id is_active := by
    show (queryAll db tenant_id is_active).filter (fun _ => true) = _
    rw [List.filter_true]
  refine ⟨?_, hQ⟩
  have hQlen : (queryAll db tenant_id is_active).length ≤ db.length := by
    have hp := (List.perm_insertionSort pageOrd
      (db.filter (basePred tenant_id is_active))).length_eq
    have hf := List.length_filter_le (basePred tenant_id is_active) db
    simpa [queryAll] using hp ▸ hf
  have := listAllPages_eq_afterCursor db tenant_id is_active limit hne h1 h2
    fuel none (by rw [hnone]; omega)
  rw [this, hnone]

/-- A second row for the pagination witness, created later than
`sampleRow` so it is listed first under `(created_at DESC, id DESC)`. -/
def sampleRow2 : ScheduleRow :=
  { sampleRow with id := "s9", created_at := 2000 }

/-- Witness: a two-row table paged with limit 1 concatenates back to the
unpaginated query. -/
theorem pagination_totality_witness :
    listAllPages [sampleRow, sampleRow2] "t1" none 1 2 none =
      queryAll [sampleRow, sampleRow2] "t1" none ∧
    List.Pairwise rowGt (queryAll [sampleRow, sampleRow2] "t1" none) :=
  pagination_totality [sampleRow, sampleRow2] "t1" none 1 2
    (by decide) (by decide) (by decide) (by decide)

end ReportScheduler
